import Mathlib

set_option maxRecDepth 8000

namespace VDM

/-! Shallow embedding of the job-orchestration core of the vdm-ai-dubbing gateway:
the jobs/media/job_events rows and SQLite triggers (migrations/001_initial.sql),
the persistence helpers (src/gateway/src/db/jobs.ts), the BullMQ queue client and
the Redis-list download path (queue/client.ts), the HTTP job routes (routes/jobs.ts),
the event aggregator and the Socket.IO subscription gateway (websocket/server.ts). -/

/-- The nine job states of the `jobs.status` column (CHECK constraint in
migrations/001_initial.sql). -/
inductive JobStatus
  | queued | downloading | downloaded | dubbing | dubbed | muxing | complete | failed | canceled
deriving DecidableEq, Repr

/-- A status is terminal when it is COMPLETE, FAILED or CANCELED (the set used by the
terminal-state guards in routes/jobs.ts and by the `set_jobs_completed_at` trigger). -/
def terminalStatus : JobStatus → Bool
  | .complete => true
  | .failed => true
  | .canceled => true
  | _ => false

/-- The `jobs` row, with timestamps as abstract clock values. -/
structure Job where
  id : String
  url : String
  updatedAt : Nat
  completedAt : Option Nat
  requestedDubbing : Bool
  targetLang : String
  useLivelyVoice : Bool
  formatPreset : String
  outputContainer : String
  downloadSubtitles : Bool
  priority : Nat
  status : JobStatus
  retries : Nat
  error : Option String
deriving DecidableEq, Repr

/-- JavaScript truthiness of the optional `error` argument in `updateJobStatus`
(`if (error)`): an absent value and the empty string are both falsy. -/
def errTruthy : Option String → Bool
  | none => false
  | some s => !(s == "")

/-- `updateJobStatus(id, status, error?)` from src/gateway/src/db/jobs.ts combined with
the two AFTER UPDATE triggers of migrations/001_initial.sql: when the error argument is
truthy the row gets `status = ?, error = ?`, otherwise `status = ?, error = NULL`;
the `update_jobs_updated_at` trigger refreshes `updated_at`, and the
`set_jobs_completed_at` trigger sets `completed_at` on a transition from a non-terminal
status into a terminal one (and never touches it otherwise). -/
def updateJobStatusRow (j : Job) (status : JobStatus) (error : Option String) (now : Nat) :
    Job :=
  { j with
    status := status
    error := if errTruthy error then error else none
    updatedAt := now
    completedAt :=
      if terminalStatus status && !terminalStatus j.status then some now else j.completedAt }

/-- `incrementJobRetries` from src/gateway/src/db/jobs.ts (with the `updated_at`
trigger). -/
def incrementJobRetriesRow (j : Job) (now : Nat) : Job :=
  { j with retries := j.retries + 1, updatedAt := now }

/-- `updateJobPriority` from src/gateway/src/db/jobs.ts (with the `updated_at`
trigger). -/
def updateJobPriorityRow (j : Job) (priority : Nat) (now : Nat) : Job :=
  { j with priority := priority, updatedAt := now }

/-- The event kinds of the `job_events.event` CHECK constraint. -/
inductive EventKind
  | progress | state_change | log | error | started | finished | retry
deriving DecidableEq, Repr

/-- The two resume stages recorded in a resume `retry` event. -/
inductive ResumeStage
  | dubbing | muxing
deriving DecidableEq, Repr

/-- A `job_events` row; the optional fields model the JSON payload keys actually
written by the gateway (`\x7bfrom, to\x7d` for state_change, `previousStatus` /
`resumeFrom` for retry, `message` for log and error rows, `url` for started). -/
structure JobEvent where
  event : EventKind
  fromSt : Option JobStatus := none
  toSt : Option JobStatus := none
  previousStatus : Option JobStatus := none
  resumeFrom : Option ResumeStage := none
  message : Option String := none
  url : Option String := none
deriving DecidableEq, Repr

/-- `logJobEvent` appends a row to the per-job event log (INSERT INTO job_events). -/
def logJobEventRow (events : List JobEvent) (e : JobEvent) : List JobEvent :=
  events ++ [e]

/-- `getJobEvents(jobId, \x7blimit, offset\x7d)`: rows ordered by timestamp descending
(ORDER BY ts DESC LIMIT ? OFFSET ?). The event list is kept in insertion order, so
descending timestamp order is its reverse. -/
def getJobEventsList (events : List JobEvent) (limit offset : Nat) : List JobEvent :=
  (events.reverse.drop offset).take limit

/-- The `media` row (all columns nullable; the row is created empty alongside the
job). -/
structure Media where
  videoPath : Option String := none
  audioOriginalPath : Option String := none
  audioDubbedPath : Option String := none
  audioMixedPath : Option String := none
  tempDir : Option String := none
  durationSec : Option Int := none
  width : Option Int := none
  height : Option Int := none
  fps : Option Int := none
  videoCodec : Option String := none
  audioCodec : Option String := none
  fileSizeBytes : Option Int := none
  sourceId : Option String := none
  sourceTitle : Option String := none
  sourceUploader : Option String := none
  sourceUploadDate : Option String := none
  sourceDescription : Option String := none
  sourceThumbnailUrl : Option String := none
deriving DecidableEq, Repr

/-- The `updates` argument of `updateMedia`. At the JavaScript runtime each field is
either absent / `undefined` (outer `none`, skipped by the `value !== undefined` test)
or present with a value that may itself be SQL NULL (`some none`, which passes the
test because `null !== undefined`) or a proper value (`some (some v)`). -/
structure MediaUpdates where
  videoPath : Option (Option String) := none
  audioOriginalPath : Option (Option String) := none
  audioDubbedPath : Option (Option String) := none
  audioMixedPath : Option (Option String) := none
  tempDir : Option (Option String) := none
  durationSec : Option (Option Int) := none
  width : Option (Option Int) := none
  height : Option (Option Int) := none
  fps : Option (Option Int) := none
  videoCodec : Option (Option String) := none
  audioCodec : Option (Option String) := none
  fileSizeBytes : Option (Option Int) := none
  sourceId : Option (Option String) := none
  sourceTitle : Option (Option String) := none
  sourceUploader : Option (Option String) := none
  sourceUploadDate : Option (Option String) := none
  sourceDescription : Option (Option String) := none
  sourceThumbnailUrl : Option (Option String) := none
deriving DecidableEq, Repr

/-- `updateMedia(jobId, updates)` from src/gateway/src/db/jobs.ts: every recognized
field whose value is not `undefined` contributes a `column = ?` assignment; all other
columns keep their previous value (and with no defined field the function returns
without running any UPDATE). -/
def updateMedia (m : Media) (u : MediaUpdates) : Media :=
  { videoPath := match u.videoPath with | some v => v | none => m.videoPath
    audioOriginalPath := match u.audioOriginalPath with | some v => v | none => m.audioOriginalPath
    audioDubbedPath := match u.audioDubbedPath with | some v => v | none => m.audioDubbedPath
    audioMixedPath := match u.audioMixedPath with | some v => v | none => m.audioMixedPath
    tempDir := match u.tempDir with | some v => v | none => m.tempDir
    durationSec := match u.durationSec with | some v => v | none => m.durationSec
    width := match u.width with | some v => v | none => m.width
    height := match u.height with | some v => v | none => m.height
    fps := match u.fps with | some v => v | none => m.fps
    videoCodec := match u.videoCodec with | some v => v | none => m.videoCodec
    audioCodec := match u.audioCodec with | some v => v | none => m.audioCodec
    fileSizeBytes := match u.fileSizeBytes with | some v => v | none => m.fileSizeBytes
    sourceId := match u.sourceId with | some v => v | none => m.sourceId
    sourceTitle := match u.sourceTitle with | some v => v | none => m.sourceTitle
    sourceUploader := match u.sourceUploader with | some v => v | none => m.sourceUploader
    sourceUploadDate := match u.sourceUploadDate with | some v => v | none => m.sourceUploadDate
    sourceDescription := match u.sourceDescription with | some v => v | none => m.sourceDescription
    sourceThumbnailUrl := match u.sourceThumbnailUrl with | some v => v | none => m.sourceThumbnailUrl }

/-! Queue client (src gateway queue/client.ts). -/

/-- `DownloadJobData`: the payload enqueued on the download queue. -/
structure DownloadJobData where
  jobId : String
  url : String
  formatPreset : String
  outputContainer : String
  requestedDubbing : Bool
  targetLang : String
  useLivelyVoice : Bool
  downloadSubtitles : Bool
  tempDir : String
  finalPath : String
  cookiesFile : Option String := none
deriving DecidableEq, Repr

/-- `DubJobData`: the payload enqueued on the dub queue. -/
structure DubJobData where
  jobId : String
  url : String
  videoPath : String
  targetLang : String
  useLivelyVoice : Bool
  tempDir : String
  outputPath : String
  finalPath : String
  outputContainer : String
deriving DecidableEq, Repr

/-- `MuxJobData`: the payload enqueued on the mux queue. -/
structure MuxJobData where
  jobId : String
  videoPath : String
  audioDubbedPath : String
  targetLang : String
  outputContainer : String
  duckingLevel : Int
  normalizationLufs : Int
  tempDir : String
  finalPath : String
deriving DecidableEq, Repr

/-- One BullMQ queue entry; BullMQ keys entries by the explicit `jobId` option. -/
structure BullEntry (α : Type) where
  jobId : String
  data : α
  priority : Nat
deriving DecidableEq, Repr

/-- The `getJob` / `remove` / `add` sequence each `enqueue*` performs on its BullMQ
queue: any existing entry with the same jobId is removed, then the new one is added
with that jobId and priority. -/
def bullAdd {α : Type} (q : List (BullEntry α)) (jobId : String) (data : α)
    (priority : Nat) : List (BullEntry α) :=
  q.filter (fun e => !(e.jobId == jobId)) ++ [{ jobId := jobId, data := data, priority := priority }]

/-- The queue-side state the gateway's queue client mutates: the three BullMQ queues
plus the plain Redis list `download` that `enqueueDownload` RPUSHes to for the Python
worker. -/
structure QueueState where
  download : List (BullEntry DownloadJobData) := []
  dub : List (BullEntry DubJobData) := []
  mux : List (BullEntry MuxJobData) := []
  downloadList : List DownloadJobData := []
deriving DecidableEq, Repr

/-- `enqueueDownload(jobId, data, priority)`: remove-then-add on the BullMQ download
queue, and an unconditional RPUSH of the JSON payload onto the Redis list
`download`. -/
def enqueueDownload (qs : QueueState) (jobId : String) (data : DownloadJobData)
    (priority : Nat) : QueueState :=
  { qs with
    download := bullAdd qs.download jobId data priority
    downloadList := qs.downloadList ++ [data] }

/-- `enqueueDub(jobId, data, priority)`: remove-then-add on the BullMQ dub queue. -/
def enqueueDub (qs : QueueState) (jobId : String) (data : DubJobData) (priority : Nat) :
    QueueState :=
  { qs with dub := bullAdd qs.dub jobId data priority }

/-- `enqueueMux(jobId, data, priority)`: remove-then-add on the BullMQ mux queue. -/
def enqueueMux (qs : QueueState) (jobId : String) (data : MuxJobData) (priority : Nat) :
    QueueState :=
  { qs with mux := bullAdd qs.mux jobId data priority }

/-! Configuration defaults (src gateway config.ts). -/

/-- `config.mediaRoot` default. -/
def cfgMediaRoot : String := "./media"

/-- `config.minFreeSpaceGb` default (MIN_FREE_SPACE_GB). -/
def cfgMinFreeSpaceGb : Nat := 10

/-- `config.defaultTargetLang` default. -/
def cfgDefaultTargetLang : String := "ru"

/-- `config.defaultContainer` default. -/
def cfgDefaultContainer : String := "mkv"

/-- `config.defaultFormatPreset` default. -/
def cfgDefaultFormatPreset : String := "bestvideo+bestaudio"

/-! Job routes (src gateway routes/jobs.ts). The single-job gateway state below pairs
the job row with its media row, its event log and the queue state; the filesystem is a
list of existing paths (`existsSync p` is membership). -/

/-- The combined persistent state touched by the job routes, for one job. -/
structure GatewayState where
  job : Job
  media : Media
  events : List JobEvent
  queues : QueueState
deriving DecidableEq, Repr

/-- `join(config.mediaRoot, 'incomplete', job.id)`. -/
def jobTempDir (jobId : String) : String :=
  cfgMediaRoot ++ "/incomplete/" ++ jobId

/-- JavaScript `a || b` on an optional string: an absent value and the empty string
both fall through to the default (used for `media.sourceTitle || job.id`). -/
def strOrDefault (o : Option String) (d : String) : String :=
  match o with
  | some s => if s == "" then d else s
  | none => d

/-- `cleanupJobFiles(job, media)`: recursively remove the job's temp directory and the
completed video file recorded on the media row. -/
def cleanupJobFiles (fs : List String) (tempDir : String) (videoPath : Option String) :
    List String :=
  (fs.filter (fun p => !(p.startsWith tempDir))).filter (fun p => !(some p == videoPath))

/-- The download payload built by POST /jobs and POST /jobs/:id/retry. -/
def downloadDataOf (j : Job) (cookiesFile : Option String) : DownloadJobData :=
  { jobId := j.id
    url := j.url
    formatPreset := j.formatPreset
    outputContainer := j.outputContainer
    requestedDubbing := j.requestedDubbing
    targetLang := j.targetLang
    useLivelyVoice := j.useLivelyVoice
    downloadSubtitles := j.downloadSubtitles
    tempDir := jobTempDir j.id
    finalPath := cfgMediaRoot ++ "/complete/" ++ j.id ++ "." ++ j.outputContainer
    cookiesFile := cookiesFile }

/-- The mux payload built by the resume route (duckingLevel -12, normalizationLufs
-16, title-based final path). -/
def muxDataOf (j : Job) (m : Media) : MuxJobData :=
  { jobId := j.id
    videoPath := m.videoPath.getD ""
    audioDubbedPath := m.audioDubbedPath.getD ""
    targetLang := j.targetLang
    outputContainer := j.outputContainer
    duckingLevel := -12
    normalizationLufs := -16
    tempDir := jobTempDir j.id
    finalPath := cfgMediaRoot ++ "/complete/" ++ strOrDefault m.sourceTitle j.id ++ " [" ++
      strOrDefault m.sourceId j.id ++ "]." ++ j.outputContainer }

/-- The dub payload built by the resume route. -/
def dubDataOf (j : Job) (m : Media) : DubJobData :=
  { jobId := j.id
    url := j.url
    videoPath := m.videoPath.getD ""
    targetLang := j.targetLang
    useLivelyVoice := j.useLivelyVoice
    tempDir := jobTempDir j.id
    outputPath := jobTempDir j.id ++ "/dubbed.wav"
    finalPath := cfgMediaRoot ++ "/complete/" ++ strOrDefault m.sourceTitle j.id ++ " [" ++
      strOrDefault m.sourceId j.id ++ "]." ++ j.outputContainer
    outputContainer := j.outputContainer }

/-! POST /jobs. -/

/-- A parsed, schema-valid POST /jobs body (zod `createJobSchema` output). -/
structure CreateJobRequest where
  url : String
  requestedDubbing : Bool := false
  targetLang : Option String := none
  useLivelyVoice : Bool := false
  formatPreset : Option String := none
  outputContainer : Option String := none
  downloadSubtitles : Bool := false
  priority : Nat := 0
  cookies : Option String := none
deriving DecidableEq, Repr

/-- `createJob(request)` from db/jobs.ts: a fresh QUEUED row with option defaults
filled from config. -/
def createJobRow (req : CreateJobRequest) (id : String) (now : Nat) : Job :=
  { id := id
    url := req.url
    updatedAt := now
    completedAt := none
    requestedDubbing := req.requestedDubbing
    targetLang := req.targetLang.getD cfgDefaultTargetLang
    useLivelyVoice := req.useLivelyVoice
    formatPreset := req.formatPreset.getD cfgDefaultFormatPreset
    outputContainer := req.outputContainer.getD cfgDefaultContainer
    downloadSubtitles := req.downloadSubtitles
    priority := req.priority
    status := .queued
    retries := 0
    error := none }

/-- Response of the POST /jobs handler (after schema validation succeeded). The
`insufficientSpace` alternative exists so that the disk-space backpressure described
by the documentation is expressible; the handler body never produces it. -/
inductive CreateResponse
  | created (j : Job)
  | insufficientSpace
deriving DecidableEq, Repr

/-- The POST /jobs handler body (routes/jobs.ts) after successful validation, with the
ambient free disk space (in GB) passed as an explicit environment input. The handler
creates the job row, the empty media row and the `started` event, writes the cookies
file when the request carried non-blank cookies, and enqueues the download payload;
no statement on this path reads the free space or `config.minFreeSpaceGb`. -/
def jobsPostHandler (freeSpaceGb : Nat) (req : CreateJobRequest) (id : String) (now : Nat)
    (queues : QueueState) (fs : List String) :
    GatewayState × List String × CreateResponse :=
  let _ := freeSpaceGb
  let job := createJobRow req id now
  let events : List JobEvent := [{ event := .started, url := some req.url }]
  let tempDir := jobTempDir id
  let writeCookies := match req.cookies with
    | some c => !(c.trim == "")
    | none => false
  let cookiesFile := if writeCookies then some (tempDir ++ "/cookies.txt") else none
  let fs1 := if writeCookies then fs ++ [tempDir ++ "/cookies.txt"] else fs
  let queues1 := enqueueDownload queues id (downloadDataOf job cookiesFile) job.priority
  ({ job := job, media := {}, events := events, queues := queues1 }, fs1, .created job)

/-! POST /jobs/:id/cancel and the control-action cancel. -/

/-- Response of the cancel endpoints: the updated job on success, 400 INVALID_STATE on
a terminal job. -/
inductive CancelResponse
  | ok (j : Job)
  | invalidState
deriving DecidableEq, Repr

/-- Result of POST /jobs/:id/cancel (state, filesystem, response). -/
structure CancelResult where
  st : GatewayState
  fs : List String
  resp : CancelResponse
deriving DecidableEq, Repr

/-- Whether a cancel response is the 200 job body (as opposed to an error body). -/
def cancelRespIsOk : CancelResponse → Bool
  | .ok _ => true
  | .invalidState => false

/-- POST /jobs/:id/cancel: reject terminal jobs; otherwise set status CANCELED, append
the state_change event, clean up the temp directory and recorded video file, and
append a cleanup log event. It performs no queue operation. -/
def cancelRoute (st : GatewayState) (fs : List String) (now : Nat) : CancelResult :=
  if terminalStatus st.job.status then
    { st := st, fs := fs, resp := .invalidState }
  else
    let job1 := updateJobStatusRow st.job .canceled none now
    let ev1 := logJobEventRow st.events
      { event := .state_change, fromSt := some st.job.status, toSt := some .canceled }
    let fs1 := cleanupJobFiles fs (jobTempDir st.job.id) st.media.videoPath
    let ev2 := logJobEventRow ev1
      { event := .log, message := some "Cleaned up temporary files" }
    { st := { st with job := job1, events := ev2 }, fs := fs1, resp := .ok job1 }

/-- The `cancel` case of POST /jobs/:id/control: status update and state_change event
only (no file cleanup, no queue operation). -/
def controlCancel (st : GatewayState) (now : Nat) : GatewayState × CancelResponse :=
  if terminalStatus st.job.status then
    (st, .invalidState)
  else
    let job1 := updateJobStatusRow st.job .canceled none now
    let ev1 := logJobEventRow st.events
      { event := .state_change, fromSt := some st.job.status, toSt := some .canceled }
    ({ st with job := job1, events := ev1 }, .ok job1)

/-- The `prioritize` case of POST /jobs/:id/control: `updateJobPriority` plus an info
log event. -/
def controlPrioritize (st : GatewayState) (priority : Nat) (now : Nat) : GatewayState :=
  { st with
    job := updateJobPriorityRow st.job priority now
    events := logJobEventRow st.events
      { event := .log, message := some ("Priority changed to " ++ toString priority) } }

/-! POST /jobs/:id/retry. -/

/-- Response of the retry endpoint. -/
inductive RetryResponse
  | ok (j : Job)
  | invalidState
deriving DecidableEq, Repr

/-- POST /jobs/:id/retry: only from FAILED or CANCELED; reset status to QUEUED (which
clears the error), append a `retry` event and a `state_change` event, and re-enqueue
the download payload (without a cookies file). The handler never touches the
`retries` column. -/
def retryRoute (st : GatewayState) (now : Nat) : GatewayState × RetryResponse :=
  if !(st.job.status == .failed || st.job.status == .canceled) then
    (st, .invalidState)
  else
    let job1 := updateJobStatusRow st.job .queued none now
    let ev1 := logJobEventRow st.events
      { event := .retry, previousStatus := some st.job.status }
    let ev2 := logJobEventRow ev1
      { event := .state_change, fromSt := some st.job.status, toSt := some .queued }
    let queues1 := enqueueDownload st.queues st.job.id (downloadDataOf st.job none)
      st.job.priority
    ({ st with job := job1, events := ev2, queues := queues1 }, .ok job1)

/-! POST /jobs/:id/resume. -/

/-- The diagnostic details of a 400 CANNOT_RESUME response. -/
structure ResumeDiag where
  downloadCompleted : Bool
  dubbingCompleted : Bool
  hasVideo : Bool
  hasDubbedAudio : Bool
  requestedDubbing : Bool
deriving DecidableEq, Repr

/-- Response of the resume endpoint. -/
inductive ResumeResponse
  | resumed (j : Job) (resumedFrom : ResumeStage)
  | invalidState
  | cannotResume (d : ResumeDiag)
deriving DecidableEq, Repr

/-- The `to` states of the state_change events among the rows returned by
`getJobEvents(id, \x7blimit: 200\x7d)` — i.e. among the 200 most recent events, not
the whole history. -/
def reachedStates (events : List JobEvent) : List JobStatus :=
  ((getJobEventsList events 200 0).filter (fun e => e.event == .state_change)).filterMap
    (fun e => e.toSt)

/-- `hasVideo`: the media row records a video path and it exists on disk. -/
def hasVideoOnDisk (m : Media) (fs : List String) : Bool :=
  match m.videoPath with
  | some p => fs.contains p
  | none => false

/-- `hasDubbedAudio`: the media row records a dubbed-audio path and it exists on
disk. -/
def hasDubbedAudioOnDisk (m : Media) (fs : List String) : Bool :=
  match m.audioDubbedPath with
  | some p => fs.contains p
  | none => false

/-- The resume-from-muxing condition: `dubbingCompleted && hasVideo &&
hasDubbedAudio`. -/
def resumeCondMux (st : GatewayState) (fs : List String) : Bool :=
  (reachedStates st.events).contains .dubbed && hasVideoOnDisk st.media fs &&
    hasDubbedAudioOnDisk st.media fs

/-- The resume-from-dubbing condition: `downloadCompleted && hasVideo &&
job.requestedDubbing`. -/
def resumeCondDub (st : GatewayState) (fs : List String) : Bool :=
  (reachedStates st.events).contains .downloaded && hasVideoOnDisk st.media fs &&
    st.job.requestedDubbing

/-- The diagnostic details of the CANNOT_RESUME response. -/
def resumeDiagOf (st : GatewayState) (fs : List String) : ResumeDiag :=
  { downloadCompleted := (reachedStates st.events).contains .downloaded
    dubbingCompleted := (reachedStates st.events).contains .dubbed
    hasVideo := hasVideoOnDisk st.media fs
    hasDubbedAudio := hasDubbedAudioOnDisk st.media fs
    requestedDubbing := st.job.requestedDubbing }

/-- POST /jobs/:id/resume: only from FAILED. Scans the 200 most recent events for
reached states, checks the recorded video / dubbed-audio paths on disk, then resumes
from muxing, from dubbing, or rejects with CANNOT_RESUME and the diagnostic fields. -/
def resumeRoute (st : GatewayState) (fs : List String) (now : Nat) :
    GatewayState × ResumeResponse :=
  if !(st.job.status == .failed) then
    (st, .invalidState)
  else
    if resumeCondMux st fs then
      let job1 := updateJobStatusRow st.job .dubbed none now
      let ev1 := logJobEventRow st.events
        { event := .retry, previousStatus := some st.job.status, resumeFrom := some .muxing }
      let ev2 := logJobEventRow ev1
        { event := .state_change, fromSt := some st.job.status, toSt := some .dubbed }
      let queues1 := enqueueMux st.queues st.job.id (muxDataOf st.job st.media) st.job.priority
      ({ st with job := job1, events := ev2, queues := queues1 }, .resumed job1 .muxing)
    else if resumeCondDub st fs then
      let job1 := updateJobStatusRow st.job .downloaded none now
      let ev1 := logJobEventRow st.events
        { event := .retry, previousStatus := some st.job.status, resumeFrom := some .dubbing }
      let ev2 := logJobEventRow ev1
        { event := .state_change, fromSt := some st.job.status, toSt := some .downloaded }
      let queues1 := enqueueDub st.queues st.job.id (dubDataOf st.job st.media) st.job.priority
      ({ st with job := job1, events := ev2, queues := queues1 }, .resumed job1 .dubbing)
    else
      (st, .cannotResume (resumeDiagOf st fs))

/-- Extracts the `resumedFrom` field a 200 resume response carries. -/
def resumedFromOf : ResumeResponse → Option ResumeStage
  | .resumed _ s => some s
  | _ => none

/-! Event aggregator (websocket/server.ts, `handleRedisEvent`): database half. -/

/-- The `state_change` case: `updateJobStatus(jobId, payload.to)` — always without an
error argument — followed by the event row. -/
def handleStateChange (st : GatewayState) (fromSt toSt : JobStatus) (now : Nat) :
    GatewayState :=
  { st with
    job := updateJobStatusRow st.job toSt none now
    events := logJobEventRow st.events
      { event := .state_change, fromSt := some fromSt, toSt := some toSt } }

/-- The `error` case: append the error event row; when `retryable = false` also
transition the job to FAILED with the message. -/
def handleErrorEvent (st : GatewayState) (retryable : Bool) (message : String) (now : Nat) :
    GatewayState :=
  let st1 := { st with
    events := logJobEventRow st.events { event := .error, message := some message } }
  if retryable then st1
  else { st1 with job := updateJobStatusRow st1.job .failed (some message) now }

/-- The `log` case: append a log event row. -/
def handleLogEvent (st : GatewayState) (message : String) : GatewayState :=
  { st with events := logJobEventRow st.events { event := .log, message := some message } }

/-- The loosely-typed `metadata` payload: every field the aggregator reads may be
absent (`none`) or carry a runtime value that may itself be null. -/
structure MetadataPayload where
  sourceId : Option (Option String) := none
  sourceTitle : Option (Option String) := none
  sourceUploader : Option (Option String) := none
  sourceUploadDate : Option (Option String) := none
  sourceDescription : Option (Option String) := none
  sourceThumbnailUrl : Option (Option String) := none
  durationSec : Option (Option Int) := none
  width : Option (Option Int) := none
  height : Option (Option Int) := none
  fps : Option (Option Int) := none
  videoCodec : Option (Option String) := none
  audioCodec : Option (Option String) := none
  fileSizeBytes : Option (Option Int) := none
  filePath : Option (Option String) := none
deriving DecidableEq, Repr

/-- The field-for-field `updateMedia` argument the metadata case builds (the `as`
casts are unchecked at runtime, so each payload value flows through untouched;
`videoPath` is taken from `payload.filePath`). -/
def metadataUpdates (p : MetadataPayload) : MediaUpdates :=
  { sourceId := p.sourceId
    sourceTitle := p.sourceTitle
    sourceUploader := p.sourceUploader
    sourceUploadDate := p.sourceUploadDate
    sourceDescription := p.sourceDescription
    sourceThumbnailUrl := p.sourceThumbnailUrl
    durationSec := p.durationSec
    width := p.width
    height := p.height
    fps := p.fps
    videoCodec := p.videoCodec
    audioCodec := p.audioCodec
    fileSizeBytes := p.fileSizeBytes
    videoPath := p.filePath }

/-- The `metadata` case: partial media update, no event row. -/
def handleMetadataEvent (st : GatewayState) (p : MetadataPayload) : GatewayState :=
  { st with media := updateMedia st.media (metadataUpdates p) }

/-! Reachable gateway states: one job created by POST /jobs, then any interleaving of
aggregator messages and control operations. -/

/-- One step of the job lifecycle: an aggregator message or a control-API call. -/
inductive GStep : GatewayState → GatewayState → Prop
  | stateChange {st : GatewayState} (fromSt toSt : JobStatus) (now : Nat) :
      GStep st (handleStateChange st fromSt toSt now)
  | errorEvent {st : GatewayState} (retryable : Bool) (message : String) (now : Nat) :
      GStep st (handleErrorEvent st retryable message now)
  | logEvent {st : GatewayState} (message : String) :
      GStep st (handleLogEvent st message)
  | metadataEvent {st : GatewayState} (p : MetadataPayload) :
      GStep st (handleMetadataEvent st p)
  | cancel {st : GatewayState} (fs : List String) (now : Nat) :
      GStep st (cancelRoute st fs now).st
  | ctrlCancel {st : GatewayState} (now : Nat) :
      GStep st (controlCancel st now).1
  | prioritize {st : GatewayState} (priority : Nat) (now : Nat) :
      GStep st (controlPrioritize st priority now)
  | retry {st : GatewayState} (now : Nat) :
      GStep st (retryRoute st now).1
  | resume {st : GatewayState} (fs : List String) (now : Nat) :
      GStep st (resumeRoute st fs now).1

/-- Gateway states reachable from job creation by the operations above. -/
inductive GReach : GatewayState → Prop
  | init (freeSpaceGb : Nat) (req : CreateJobRequest) (id : String) (now : Nat)
      (queues : QueueState) (fs : List String) :
      GReach (jobsPostHandler freeSpaceGb req id now queues fs).1
  | step {st st' : GatewayState} : GReach st → GStep st st' → GReach st'

/-! Subscription gateway (websocket/server.ts): per-socket subscription sets, the
per-job socket index, and Socket.IO room membership. -/

/-- `Map.get` on a JavaScript Map keyed by strings, as an association list holding
each key at most once. -/
def alistFind : List (String × List String) → String → Option (List String)
  | [], _ => none
  | kv :: rest, k => if kv.1 == k then some kv.2 else alistFind rest k

/-- `Map.set`: replace the binding in place when the key is present, append it
otherwise (JavaScript Maps keep insertion order). -/
def alistSet : List (String × List String) → String → List String →
    List (String × List String)
  | [], k, v => [(k, v)]
  | kv :: rest, k, v => if kv.1 == k then (k, v) :: rest else kv :: alistSet rest k v

/-- `Map.delete`. -/
def alistRemove : List (String × List String) → String → List (String × List String)
  | [], _ => []
  | kv :: rest, k => if kv.1 == k then alistRemove rest k else kv :: alistRemove rest k

/-- `set`, deleting the binding when the new value is empty (the `if size === 0 then
delete` pattern; Socket.IO likewise drops a room once its last member leaves). -/
def alistSetNE (m : List (String × List String)) (k : String) (v : List String) :
    List (String × List String) :=
  if v.isEmpty then alistRemove m k else alistSet m k v

/-- JavaScript `Set.add`: append unless already present. -/
def listAdd (l : List String) (x : String) : List String :=
  if l.contains x then l else l ++ [x]

/-- JavaScript `Set.delete`. -/
def listRemove (l : List String) (x : String) : List String :=
  l.filter (fun y => !(y == x))

/-- The subscription state: `socketJobSubscriptions` (socket id → set of job ids),
`jobSocketSubscriptions` (job id → set of socket ids), and the Socket.IO rooms
`job:X` (job id → member sockets). -/
structure SubState where
  socketJobs : List (String × List String) := []
  jobSockets : List (String × List String) := []
  rooms : List (String × List String) := []
deriving DecidableEq, Repr

/-- The job-id set a socket holds in `socketJobSubscriptions`. -/
def subsOf (st : SubState) (c : String) : List String :=
  (alistFind st.socketJobs c).getD []

/-- The member set of the room `job:X`. -/
def roomMembers (st : SubState) (j : String) : List String :=
  (alistFind st.rooms j).getD []

/-- A socket is connected while `socketJobSubscriptions` holds an entry for it. -/
def connectedSock (st : SubState) (c : String) : Bool :=
  (alistFind st.socketJobs c).isSome

/-- The `connection` handler: initialize the socket's subscription set. -/
def connectOp (st : SubState) (c : String) : SubState :=
  { st with socketJobs := alistSet st.socketJobs c [] }

/-- The body of the `subscribe` loop for one job id: add the id to the socket's set,
add the socket to the job's socket set, and `socket.join` the room (idempotent). -/
def subscribeOne (st : SubState) (c : String) (jobId : String) : SubState :=
  { socketJobs := alistSet st.socketJobs c (listAdd (subsOf st c) jobId)
    jobSockets := alistSet st.jobSockets jobId
      (listAdd ((alistFind st.jobSockets jobId).getD []) c)
    rooms := alistSet st.rooms jobId (listAdd (roomMembers st jobId) c) }

/-- The `subscribe` handler: a no-op for an unknown socket, otherwise one iteration
per requested job id. -/
def subscribeOp (st : SubState) (c : String) (jobIds : List String) : SubState :=
  match alistFind st.socketJobs c with
  | none => st
  | some _ => jobIds.foldl (fun acc jobId => subscribeOne acc c jobId) st

/-- The body of the `unsubscribe` loop for one job id: remove the id from the socket's
set, remove the socket from the job's socket set (dropping the entry when it becomes
empty), and `socket.leave` the room. -/
def unsubscribeOne (st : SubState) (c : String) (jobId : String) : SubState :=
  { socketJobs := alistSet st.socketJobs c (listRemove (subsOf st c) jobId)
    jobSockets := alistSetNE st.jobSockets jobId
      (listRemove ((alistFind st.jobSockets jobId).getD []) c)
    rooms := alistSetNE st.rooms jobId (listRemove (roomMembers st jobId) c) }

/-- The `unsubscribe` handler. -/
def unsubscribeOp (st : SubState) (c : String) (jobIds : List String) : SubState :=
  match alistFind st.socketJobs c with
  | none => st
  | some _ => jobIds.foldl (fun acc jobId => unsubscribeOne acc c jobId) st

/-- One iteration of the `disconnect` cleanup loop: remove the socket from the given
job's socket set (dropping the entry when it becomes empty). -/
def discJobSockets (c : String) (acc : SubState) (jobId : String) : SubState :=
  { acc with jobSockets :=
      alistSetNE acc.jobSockets jobId (listRemove ((alistFind acc.jobSockets jobId).getD []) c) }

/-- The `disconnect` handler: remove the socket from every job's socket set and drop
its subscription entry; Socket.IO removes a disconnected socket from every room. -/
def disconnectOp (st : SubState) (c : String) : SubState :=
  let st1 := (subsOf st c).foldl (discJobSockets c) st
  { st1 with
    socketJobs := alistRemove st1.socketJobs c
    rooms := st1.rooms.map (fun kv => (kv.1, listRemove kv.2 c)) }

/-- One operation on the subscription gateway. A `connect` uses a fresh socket id. -/
inductive SubStep : SubState → SubState → Prop
  | connect {st : SubState} (c : String) (h : alistFind st.socketJobs c = none) :
      SubStep st (connectOp st c)
  | subscribe {st : SubState} (c : String) (jobIds : List String) :
      SubStep st (subscribeOp st c jobIds)
  | unsubscribe {st : SubState} (c : String) (jobIds : List String) :
      SubStep st (unsubscribeOp st c jobIds)
  | disconnect {st : SubState} (c : String) :
      SubStep st (disconnectOp st c)

/-- Subscription states reachable from the empty gateway. -/
inductive SubReach : SubState → Prop
  | init : SubReach { socketJobs := [], jobSockets := [], rooms := [] }
  | step {st st' : SubState} : SubReach st → SubStep st st' → SubReach st'

/-- The five aggregator message kinds that may be forwarded to clients. -/
inductive ChannelType
  | progress | state_change | log | error | metadata
deriving DecidableEq, Repr

/-- How many copies of a forwarded message for job `jobId` the socket `c` receives
(`handleRedisEvent`, WebSocket half, with `io` available): progress, log and error
are emitted to the room `job:jobId`; state_change is emitted to that room and then
broadcast to every connected socket; metadata is not forwarded. -/
def deliveredCopies (st : SubState) (t : ChannelType) (jobId : String) (c : String) : Nat :=
  (match t with
   | .metadata => 0
   | _ => if c ∈ roomMembers st jobId then 1 else 0)
  + (if t == .state_change && connectedSock st c then 1 else 0)

/-- The linking invariant of the subscription gateway: a socket is in the room `job:X`
exactly when `X` is in its subscription set. -/
def SubInv (st : SubState) : Prop :=
  ∀ c j : String, c ∈ roomMembers st j ↔ j ∈ subsOf st c

/-! Repeated enqueue sequences, for the idempotent-enqueue property. -/

/-- Number of BullMQ entries a queue holds for a given jobId. -/
def countEntries {α : Type} (q : List (BullEntry α)) (jobId : String) : Nat :=
  (q.filter (fun e => e.jobId == jobId)).length

/-- A sequence of `bullAdd` calls `(jobId, data, priority)` applied in order. -/
def applyBullOps {α : Type} (q : List (BullEntry α)) (ops : List (String × α × Nat)) :
    List (BullEntry α) :=
  ops.foldl (fun acc o => bullAdd acc o.1 o.2.1 o.2.2) q

/-- A sequence of `enqueueDownload` calls applied in order. -/
def applyDownloadOps (qs : QueueState) (ops : List (String × DownloadJobData × Nat)) :
    QueueState :=
  ops.foldl (fun acc o => enqueueDownload acc o.1 o.2.1 o.2.2) qs

/-- A sequence of `enqueueDub` calls applied in order. -/
def applyDubOps (qs : QueueState) (ops : List (String × DubJobData × Nat)) : QueueState :=
  ops.foldl (fun acc o => enqueueDub acc o.1 o.2.1 o.2.2) qs

/-- A sequence of `enqueueMux` calls applied in order. -/
def applyMuxOps (qs : QueueState) (ops : List (String × MuxJobData × Nat)) : QueueState :=
  ops.foldl (fun acc o => enqueueMux acc o.1 o.2.1 o.2.2) qs

/-! Concrete fixtures used to evaluate the model on specific runs. -/

/-- A valid creation request. -/
def fixReq : CreateJobRequest := { url := "https://example.test/v" }

/-- The state right after POST /jobs accepted `fixReq` (job `01W`, QUEUED, one
download queue entry). -/
def fixSt0 : GatewayState := (jobsPostHandler 0 fixReq "01W" 1 {} []).1

/-- `fixSt0` after the aggregator processed a worker `state_change` to FAILED. -/
def fixStFailed : GatewayState := handleStateChange fixSt0 .queued .failed 2

/-- `fixStFailed` after POST /jobs/:id/retry. -/
def fixStRetried : GatewayState := (retryRoute fixStFailed 3).1

/-- `fixSt0` after the aggregator processed a non-retryable worker error. -/
def fixStErr : GatewayState := handleErrorEvent fixSt0 false "Network timeout" 2

/-- A FAILED dubbing job. -/
def fixJobFailed : Job :=
  { id := "01J", url := "https://example.test/v", updatedAt := 1, completedAt := some 1,
    requestedDubbing := true, targetLang := "ru", useLivelyVoice := false,
    formatPreset := "best", outputContainer := "mkv", downloadSubtitles := false,
    priority := 0, status := .failed, retries := 0, error := some "boom" }

/-- An event history of 201 rows whose only state_change (to DOWNLOADED) is the oldest
row, followed by 200 newer log rows. -/
def fixEventsLong : List JobEvent :=
  { event := .state_change, fromSt := some .downloading, toSt := some .downloaded } ::
    List.replicate 200 { event := .log }

/-- A FAILED dubbing job whose DOWNLOADED transition has been pushed out of the 200
most recent events, with the video still on disk. -/
def fixStTrunc : GatewayState :=
  { job := fixJobFailed, media := { videoPath := some "/m/v.mp4" },
    events := fixEventsLong, queues := {} }

/-- A FAILED dubbing job that reached DUBBED, with video and dubbed audio on disk. -/
def fixStResume : GatewayState :=
  { job := fixJobFailed
    media := { videoPath := some "/m/v.mp4", audioDubbedPath := some "/m/d.wav" }
    events :=
      [{ event := .state_change, fromSt := some .downloading, toSt := some .downloaded },
       { event := .state_change, fromSt := some .dubbing, toSt := some .dubbed }]
    queues := {} }

/-- A media row with a recorded video path. -/
def fixMedia : Media := { videoPath := some "/data/v.mp4" }

/-- The download payload of job `01W`. -/
def fixDl : DownloadJobData := downloadDataOf (createJobRow fixReq "01W" 1) none

/-- The empty subscription gateway. -/
def fixSubEmpty : SubState := { socketJobs := [], jobSockets := [], rooms := [] }

/-- The gateway after socket `a` connected. -/
def fixSubA : SubState := connectOp fixSubEmpty "a"

/-- The gateway after socket `a` connected and subscribed to job `j1`. -/
def fixSubA1 : SubState := subscribeOp fixSubA "a" ["j1"]

end VDM

namespace VDM

/-! Shared helper lemmas. -/

lemma filter_filter_not_self {α : Type} (q : List (BullEntry α)) (id : String) :
    (q.filter (fun e => !(e.jobId == id))).filter (fun e => e.jobId == id) = [] := by
  induction q with
  | nil => rfl
  | cons hd tl ih =>
    by_cases h : hd.jobId = id
    · simp only [List.filter_cons]
      simp [h, ih]
    · simp only [List.filter_cons]
      simp [h, ih]

lemma filter_bullAdd_self {α : Type} (q : List (BullEntry α)) (id : String) (d : α) (p : Nat) :
    (bullAdd q id d p).filter (fun e => e.jobId == id) =
      [{ jobId := id, data := d, priority := p }] := by
  unfold bullAdd
  rw [List.filter_append, filter_filter_not_self]
  simp

lemma countEntries_bullAdd_self {α : Type} (q : List (BullEntry α)) (id : String) (d : α)
    (p : Nat) : countEntries (bullAdd q id d p) id = 1 := by
  unfold countEntries
  rw [filter_bullAdd_self]
  rfl

lemma filter_erase_other {α : Type} (q : List (BullEntry α)) (id id' : String)
    (h : id' ≠ id) :
    (q.filter (fun e => !(e.jobId == id'))).filter (fun e => e.jobId == id) =
      q.filter (fun e => e.jobId == id) := by
  induction q with
  | nil => rfl
  | cons hd tl ih =>
    by_cases h1 : hd.jobId = id'
    · have h2 : ¬ hd.jobId = id := by rw [h1]; exact h
      simp [List.filter_cons, h1, h2, h, Ne.symm h, ih]
    · by_cases h2 : hd.jobId = id
      · simp [List.filter_cons, h1, h2, h, Ne.symm h, ih]
      · simp [List.filter_cons, h1, h2, h, Ne.symm h, ih]

lemma countEntries_bullAdd_other {α : Type} (q : List (BullEntry α)) (id id' : String)
    (d : α) (p : Nat) (h : id' ≠ id) :
    countEntries (bullAdd q id' d p) id = countEntries q id := by
  unfold countEntries bullAdd
  rw [List.filter_append, filter_erase_other q id id' h]
  simp [h]

lemma applyBullOps_count_of_not_mem {α : Type} (ops : List (String × α × Nat))
    (q : List (BullEntry α)) (id : String) (h : id ∉ ops.map (fun o => o.1)) :
    countEntries (applyBullOps q ops) id = countEntries q id := by
  induction ops generalizing q with
  | nil => rfl
  | cons o rest ih =>
    simp only [List.map_cons, List.mem_cons, not_or] at h
    have hstep : applyBullOps q (o :: rest) = applyBullOps (bullAdd q o.1 o.2.1 o.2.2) rest := rfl
    rw [hstep, ih _ h.2, countEntries_bullAdd_other _ _ _ _ _ (fun he => h.1 he.symm)]

lemma applyBullOps_count_of_mem {α : Type} (ops : List (String × α × Nat))
    (q : List (BullEntry α)) (id : String) (h : id ∈ ops.map (fun o => o.1)) :
    countEntries (applyBullOps q ops) id = 1 := by
  induction ops generalizing q with
  | nil => simp at h
  | cons o rest ih =>
    have hstep : applyBullOps q (o :: rest) = applyBullOps (bullAdd q o.1 o.2.1 o.2.2) rest := rfl
    rw [hstep]
    by_cases hm : id ∈ rest.map (fun o => o.1)
    · exact ih _ hm
    · have ho : o.1 = id := by
        simp only [List.map_cons, List.mem_cons] at h
        rcases h with h | h
        · exact h.symm
        · exact absurd h hm
      rw [applyBullOps_count_of_not_mem rest _ id hm, ho, countEntries_bullAdd_self]

lemma applyDownloadOps_download (ops : List (String × DownloadJobData × Nat)) :
    ∀ qs : QueueState, (applyDownloadOps qs ops).download = applyBullOps qs.download ops := by
  induction ops with
  | nil => intro qs; rfl
  | cons o rest ih =>
    intro qs
    exact ih (enqueueDownload qs o.1 o.2.1 o.2.2)

lemma applyDubOps_dub (ops : List (String × DubJobData × Nat)) :
    ∀ qs : QueueState, (applyDubOps qs ops).dub = applyBullOps qs.dub ops := by
  induction ops with
  | nil => intro qs; rfl
  | cons o rest ih =>
    intro qs
    exact ih (enqueueDub qs o.1 o.2.1 o.2.2)

lemma applyMuxOps_mux (ops : List (String × MuxJobData × Nat)) :
    ∀ qs : QueueState, (applyMuxOps qs ops).mux = applyBullOps qs.mux ops := by
  induction ops with
  | nil => intro qs; rfl
  | cons o rest ih =>
    intro qs
    exact ih (enqueueMux qs o.1 o.2.1 o.2.2)

/-! Claim theorems. -/

/-- C10 (amended): `updateMedia` only writes the columns whose update field is present
and not `undefined`: an all-absent update is a complete no-op, every absent field
leaves its column untouched, and every present field is written with exactly the
value it carries — including an explicit null, which therefore CAN reset a column to
NULL (see the counterexample). -/
theorem updateMedia_frame : ∀ (m : Media) (u : MediaUpdates),
    (u = {} → updateMedia m u = m)
  ∧ (u.videoPath = none → (updateMedia m u).videoPath = m.videoPath)
  ∧ (u.audioOriginalPath = none → (updateMedia m u).audioOriginalPath = m.audioOriginalPath)
  ∧ (u.audioDubbedPath = none → (updateMedia m u).audioDubbedPath = m.audioDubbedPath)
  ∧ (u.audioMixedPath = none → (updateMedia m u).audioMixedPath = m.audioMixedPath)
  ∧ (u.tempDir = none → (updateMedia m u).tempDir = m.tempDir)
  ∧ (u.durationSec = none → (updateMedia m u).durationSec = m.durationSec)
  ∧ (u.width = none → (updateMedia m u).width = m.width)
  ∧ (u.height = none → (updateMedia m u).height = m.height)
  ∧ (u.fps = none → (updateMedia m u).fps = m.fps)
  ∧ (u.videoCodec = none → (updateMedia m u).videoCodec = m.videoCodec)
  ∧ (u.audioCodec = none → (updateMedia m u).audioCodec = m.audioCodec)
  ∧ (u.fileSizeBytes = none → (updateMedia m u).fileSizeBytes = m.fileSizeBytes)
  ∧ (u.sourceId = none → (updateMedia m u).sourceId = m.sourceId)
  ∧ (u.sourceTitle = none → (updateMedia m u).sourceTitle = m.sourceTitle)
  ∧ (u.sourceUploader = none → (updateMedia m u).sourceUploader = m.sourceUploader)
  ∧ (u.sourceUploadDate = none → (updateMedia m u).sourceUploadDate = m.sourceUploadDate)
  ∧ (u.sourceDescription = none → (updateMedia m u).sourceDescription = m.sourceDescription)
  ∧ (u.sourceThumbnailUrl = none → (updateMedia m u).sourceThumbnailUrl = m.sourceThumbnailUrl)
  ∧ (∀ v, u.videoPath = some v → (updateMedia m u).videoPath = v)
  ∧ (∀ v, u.audioOriginalPath = some v → (updateMedia m u).audioOriginalPath = v)
  ∧ (∀ v, u.audioDubbedPath = some v → (updateMedia m u).audioDubbedPath = v)
  ∧ (∀ v, u.audioMixedPath = some v → (updateMedia m u).audioMixedPath = v)
  ∧ (∀ v, u.tempDir = some v → (updateMedia m u).tempDir = v)
  ∧ (∀ v, u.durationSec = some v → (updateMedia m u).durationSec = v)
  ∧ (∀ v, u.width = some v → (updateMedia m u).width = v)
  ∧ (∀ v, u.height = some v → (updateMedia m u).height = v)
  ∧ (∀ v, u.fps = some v → (updateMedia m u).fps = v)
  ∧ (∀ v, u.videoCodec = some v → (updateMedia m u).videoCodec = v)
  ∧ (∀ v, u.audioCodec = some v → (updateMedia m u).audioCodec = v)
  ∧ (∀ v, u.fileSizeBytes = some v → (updateMedia m u).fileSizeBytes = v)
  ∧ (∀ v, u.sourceId = some v → (updateMedia m u).sourceId = v)
  ∧ (∀ v, u.sourceTitle = some v → (updateMedia m u).sourceTitle = v)
  ∧ (∀ v, u.sourceUploader = some v → (updateMedia m u).sourceUploader = v)
  ∧ (∀ v, u.sourceUploadDate = some v → (updateMedia m u).sourceUploadDate = v)
  ∧ (∀ v, u.sourceDescription = some v → (updateMedia m u).sourceDescription = v)
  ∧ (∀ v, u.sourceThumbnailUrl = some v → (updateMedia m u).sourceThumbnailUrl = v) := by
  intro m u
  repeat' apply And.intro
  all_goals
    first
    | (intro h; subst h; rfl)
    | (intro h; simp [updateMedia, h])
    | (intro v h; simp [updateMedia, h])

/-- C10 (witness): evaluating the no-op case on a concrete media row. -/
theorem updateMedia_frame_witness :
    ({} : MediaUpdates) = {} ∧ updateMedia fixMedia {} = fixMedia :=
  ⟨rfl, (updateMedia_frame fixMedia {}).1 rfl⟩

/-- C10 (counterexample): a metadata update whose `filePath` is an explicit null
passes the `value !== undefined` test and resets an already-recorded `video_path` to
NULL, contradicting the claim that no column is ever reset to null. -/
theorem updateMedia_null_overwrite_cex :
    fixMedia.videoPath = some "/data/v.mp4"
  ∧ (updateMedia fixMedia (metadataUpdates { filePath := some none })).videoPath = none := by
  decide

/-- C8: the POST /jobs handler performs no disk-space check: with 0 GB free and the
configured minimum of 10 GB, a valid creation request is still accepted — the job row,
the `started` event and the download queue entry are all created and the response is
the created job, never `insufficient_space`. -/
theorem create_ignores_free_space :
    0 < cfgMinFreeSpaceGb
  ∧ (jobsPostHandler 0 fixReq "01B" 7 {} []).2.2 = .created (createJobRow fixReq "01B" 7)
  ∧ (jobsPostHandler 0 fixReq "01B" 7 {} []).1.job = createJobRow fixReq "01B" 7
  ∧ (jobsPostHandler 0 fixReq "01B" 7 {} []).1.events =
      [{ event := .started, url := some "https://example.test/v" }]
  ∧ countEntries (jobsPostHandler 0 fixReq "01B" 7 {} []).1.queues.download "01B" = 1 := by
  decide

/-- C3 (amended): the aggregator's state_change handler writes the event row, updates
the job's state and clears the error for EVERY target state (it always calls
`updateJobStatus` without an error argument), and `updateJobStatus` itself keys the
error column on its error argument alone: a truthy error is stored regardless of the
new state, an absent error clears the column regardless of the new state. -/
theorem state_change_error_handling :
    (∀ (st : GatewayState) (fromSt toSt : JobStatus) (now : Nat),
        (handleStateChange st fromSt toSt now).job.status = toSt
      ∧ (handleStateChange st fromSt toSt now).job.error = none
      ∧ (handleStateChange st fromSt toSt now).events =
          st.events ++ [{ event := .state_change, fromSt := some fromSt, toSt := some toSt }])
  ∧ (∀ (j : Job) (s : JobStatus) (e : Option String) (now : Nat),
        errTruthy e = true → (updateJobStatusRow j s e now).error = e)
  ∧ (∀ (j : Job) (s : JobStatus) (e : Option String) (now : Nat),
        errTruthy e = false → (updateJobStatusRow j s e now).error = none) := by
  refine ⟨fun st f t now => ⟨rfl, rfl, rfl⟩,
    fun j s e now h => by simp [updateJobStatusRow, h],
    fun j s e now h => by simp [updateJobStatusRow, h]⟩

/-- C3 (witness): a truthy error is stored even on a transition to CANCELED. -/
theorem state_change_error_handling_witness :
    errTruthy (some "disk full") = true
  ∧ (updateJobStatusRow (createJobRow fixReq "01W" 1) .canceled (some "disk full") 5).error =
      some "disk full" :=
  ⟨by decide, state_change_error_handling.2.1 (createJobRow fixReq "01W" 1) .canceled
    (some "disk full") 5 (by decide)⟩

/-- C3 (counterexample): a job that recorded an error through a non-retryable worker
error loses that error when the aggregator processes a state_change whose target is
FAILED — the handler clears the error even though `to = failed`. -/
theorem state_change_failed_clears_error_cex :
    fixStErr.job.error = some "Network timeout"
  ∧ fixStErr.job.status = .failed
  ∧ (handleStateChange fixStErr .dubbing .failed 3).job.error = none := by decide

/-- C7 (amended): every BullMQ queue holds at most one entry per job id — after any
sequence of enqueue calls containing at least one for the given id, the queue holds
exactly one entry for it (existing entries are removed before insertion). The Redis
compatibility list of the download path is NOT deduplicated (see counterexample). -/
theorem enqueue_bull_idempotent :
    (∀ (ops : List (String × DownloadJobData × Nat)) (qs : QueueState) (id : String),
        id ∈ ops.map (fun o => o.1) →
        countEntries (applyDownloadOps qs ops).download id = 1)
  ∧ (∀ (ops : List (String × DubJobData × Nat)) (qs : QueueState) (id : String),
        id ∈ ops.map (fun o => o.1) →
        countEntries (applyDubOps qs ops).dub id = 1)
  ∧ (∀ (ops : List (String × MuxJobData × Nat)) (qs : QueueState) (id : String),
        id ∈ ops.map (fun o => o.1) →
        countEntries (applyMuxOps qs ops).mux id = 1) := by
  refine ⟨fun ops qs id h => ?_, fun ops qs id h => ?_, fun ops qs id h => ?_⟩
  · rw [applyDownloadOps_download]
    exact applyBullOps_count_of_mem ops qs.download id h
  · rw [applyDubOps_dub]
    exact applyBullOps_count_of_mem ops qs.dub id h
  · rw [applyMuxOps_mux]
    exact applyBullOps_count_of_mem ops qs.mux id h

/-- C7 (witness): two download enqueues for the same job leave exactly one BullMQ
entry. -/
theorem enqueue_bull_idempotent_witness :
    "01W" ∈ ([("01W", fixDl, 0), ("01W", fixDl, 0)] :
      List (String × DownloadJobData × Nat)).map (fun o => o.1)
  ∧ countEntries (applyDownloadOps {} [("01W", fixDl, 0), ("01W", fixDl, 0)]).download
      "01W" = 1 :=
  ⟨by decide, enqueue_bull_idempotent.1 [("01W", fixDl, 0), ("01W", fixDl, 0)] {} "01W"
    (by decide)⟩

/-- C7 (counterexample): `enqueueDownload` additionally RPUSHes the payload onto the
plain Redis list `download` on every call, with no deduplication — two calls for the
same job id leave two entries of that job in the download queue state, refuting the
claim for the download enqueue path. -/
theorem enqueue_redis_list_cex :
    ((enqueueDownload (enqueueDownload {} "01W" fixDl 0) "01W" fixDl 0).downloadList.map
      (fun d => d.jobId)) = ["01W", "01W"]
  ∧ countEntries (enqueueDownload (enqueueDownload {} "01W" fixDl 0) "01W" fixDl
      0).download "01W" = 1 := by decide


/-- C4 (amended): retry of a FAILED or CANCELED job resets its state to QUEUED, clears
the error, appends a `retry` event and a `state_change` event, and re-enqueues the
download payload — but the job's `retries` field is left unchanged
(`incrementJobRetries` exists in db/jobs.ts and is never invoked by the route). -/
theorem retry_semantics (st : GatewayState) (now : Nat)
    (h : st.job.status = .failed ∨ st.job.status = .canceled) :
    (retryRoute st now).1.job.status = .queued
  ∧ (retryRoute st now).1.job.error = none
  ∧ (retryRoute st now).1.job.retries = st.job.retries
  ∧ (retryRoute st now).1.events =
      st.events ++ [{ event := .retry, previousStatus := some st.job.status },
        { event := .state_change, fromSt := some st.job.status, toSt := some .queued }]
  ∧ (retryRoute st now).1.queues.download.filter (fun e => e.jobId == st.job.id) =
      [{ jobId := st.job.id, data := downloadDataOf st.job none,
         priority := st.job.priority }]
  ∧ (retryRoute st now).2 = .ok (retryRoute st now).1.job := by
  have hguard : (st.job.status == .failed || st.job.status == .canceled) = true := by
    rcases h with h | h <;> simp [h]
  have hroute : retryRoute st now =
      ({ st with
          job := updateJobStatusRow st.job .queued none now
          events := logJobEventRow
            (logJobEventRow st.events { event := .retry, previousStatus := some st.job.status })
            { event := .state_change, fromSt := some st.job.status, toSt := some .queued }
          queues := enqueueDownload st.queues st.job.id (downloadDataOf st.job none)
            st.job.priority },
        .ok (updateJobStatusRow st.job .queued none now)) := by
    unfold retryRoute
    rw [hguard]
    simp
  rw [hroute]
  refine ⟨rfl, rfl, rfl, ?_, ?_, rfl⟩
  · simp [logJobEventRow]
  · simp only [enqueueDownload]
    exact filter_bullAdd_self st.queues.download st.job.id (downloadDataOf st.job none)
      st.job.priority

/-- C4 (witness): retry of the FAILED job 01W. -/
theorem retry_semantics_witness :
    (fixStFailed.job.status = .failed ∨ fixStFailed.job.status = .canceled)
  ∧ (retryRoute fixStFailed 3).1.job.status = .queued :=
  ⟨Or.inl (by decide), (retry_semantics fixStFailed 3 (Or.inl (by decide))).1⟩

/-- C4 (counterexample): a successful retry of the FAILED job 01W leaves `retries` at
0 instead of incrementing it to 1. -/
theorem retry_no_increment_cex :
    fixStFailed.job.status = .failed
  ∧ fixStFailed.job.retries = 0
  ∧ fixStRetried.job.status = .queued
  ∧ fixStRetried.job.retries = 0 := by decide

/-- C5 (amended): cancelling a non-terminal job sets its state to CANCELED, appends
the `state_change` event (plus a cleanup log event), removes the temp directory and
the recorded video file from disk, and returns the updated job — but performs no queue
operation (the queue state is untouched; the control-action variant also skips the
file cleanup). Cancelling a terminal job is rejected and changes nothing. -/
theorem cancel_semantics (st : GatewayState) (fs : List String) (now : Nat) :
    (terminalStatus st.job.status = false →
        (cancelRoute st fs now).st.job.status = .canceled
      ∧ (cancelRoute st fs now).st.events =
          st.events ++ [{ event := .state_change
                          fromSt := some st.job.status
                          toSt := some .canceled },
            { event := .log, message := some "Cleaned up temporary files" }]
      ∧ (cancelRoute st fs now).fs =
          cleanupJobFiles fs (jobTempDir st.job.id) st.media.videoPath
      ∧ (cancelRoute st fs now).st.queues = st.queues
      ∧ (cancelRoute st fs now).resp = .ok (cancelRoute st fs now).st.job
      ∧ (controlCancel st now).1.job.status = .canceled
      ∧ (controlCancel st now).1.queues = st.queues)
  ∧ (terminalStatus st.job.status = true →
        cancelRoute st fs now = { st := st, fs := fs, resp := .invalidState }
      ∧ controlCancel st now = (st, .invalidState)) := by
  constructor
  · intro h
    have hroute : cancelRoute st fs now =
        { st := { st with
            job := updateJobStatusRow st.job .canceled none now
            events := logJobEventRow
              (logJobEventRow st.events
                { event := .state_change, fromSt := some st.job.status, toSt := some .canceled })
              { event := .log, message := some "Cleaned up temporary files" } }
          fs := cleanupJobFiles fs (jobTempDir st.job.id) st.media.videoPath
          resp := .ok (updateJobStatusRow st.job .canceled none now) } := by
      unfold cancelRoute
      rw [h]
      simp
    have hctrl : controlCancel st now =
        ({ st with
            job := updateJobStatusRow st.job .canceled none now
            events := logJobEventRow st.events
              { event := .state_change, fromSt := some st.job.status, toSt := some .canceled } },
          .ok (updateJobStatusRow st.job .canceled none now)) := by
      unfold controlCancel
      rw [h]
      simp
    rw [hroute, hctrl]
    refine ⟨rfl, ?_, rfl, rfl, rfl, rfl, rfl⟩
    simp [logJobEventRow]
  · intro h
    constructor
    · unfold cancelRoute
      rw [h]
      simp
    · unfold controlCancel
      rw [h]
      simp

/-- C5 (witness): cancelling the QUEUED job 01W. -/
theorem cancel_semantics_witness :
    terminalStatus fixSt0.job.status = false
  ∧ (cancelRoute fixSt0 [] 5).st.job.status = .canceled :=
  ⟨by decide, ((cancel_semantics fixSt0 [] 5).1 (by decide)).1⟩

/-- C5 (counterexample): job 01W is QUEUED with one pending download queue entry;
after cancel the job is CANCELED but the queue entry is still there — cancel removes
no pending queue entry. -/
theorem cancel_keeps_queue_cex :
    fixSt0.job.status = .queued
  ∧ countEntries fixSt0.queues.download "01W" = 1
  ∧ (cancelRoute fixSt0 [] 5).st.job.status = .canceled
  ∧ countEntries (cancelRoute fixSt0 [] 5).st.queues.download "01W" = 1 := by decide

/-- C6 (amended): after a first cancel leaves the job CANCELED, a second cancel is
rejected with invalid_state and is a complete no-op: state, filesystem and queues are
exactly those the first cancel produced. -/
theorem double_cancel (st : GatewayState) (fs : List String) (now1 now2 : Nat)
    (h : terminalStatus st.job.status = false) :
    (cancelRoute st fs now1).st.job.status = .canceled
  ∧ cancelRoute (cancelRoute st fs now1).st (cancelRoute st fs now1).fs now2 =
      { st := (cancelRoute st fs now1).st, fs := (cancelRoute st fs now1).fs,
        resp := .invalidState } := by
  have hroute : cancelRoute st fs now1 =
      { st := { st with
          job := updateJobStatusRow st.job .canceled none now1
          events := logJobEventRow
            (logJobEventRow st.events
              { event := .state_change, fromSt := some st.job.status, toSt := some .canceled })
            { event := .log, message := some "Cleaned up temporary files" } }
        fs := cleanupJobFiles fs (jobTempDir st.job.id) st.media.videoPath
        resp := .ok (updateJobStatusRow st.job .canceled none now1) } := by
    unfold cancelRoute
    rw [h]
    simp
  constructor
  · rw [hroute]
    rfl
  · rw [hroute]
    unfold cancelRoute
    simp [updateJobStatusRow, terminalStatus]

/-- C6 (witness): double cancel of the QUEUED job 01W. -/
theorem double_cancel_witness :
    terminalStatus fixSt0.job.status = false
  ∧ (cancelRoute fixSt0 [] 1).st.job.status = .canceled :=
  ⟨by decide, (double_cancel fixSt0 [] 1 2 (by decide)).1⟩

/-- C6 (counterexample): the second cancel of job 01W does not return the canceled
job state — it returns the 400 invalid_state rejection. -/
theorem double_cancel_rejected_cex :
    (cancelRoute (cancelRoute fixSt0 [] 1).st (cancelRoute fixSt0 [] 1).fs 2).resp =
      .invalidState
  ∧ cancelRespIsOk
      (cancelRoute (cancelRoute fixSt0 [] 1).st (cancelRoute fixSt0 [] 1).fs 2).resp =
      false := by decide


/-- C1 (amended): for a FAILED job, the resume route follows the decision table with
the reached-state scan taken over the 200 MOST RECENT events (`getJobEvents` with
limit 200), not the full history: if DUBBED was reached (within that window) and both
recorded files exist on disk, the job is set to DUBBED, a mux payload is enqueued and
the response carries resumedFrom = muxing; otherwise if DOWNLOADED was reached, the
video exists and dubbing was requested, the job is set to DOWNLOADED, a dub payload is
enqueued and the response carries resumedFrom = dubbing; otherwise the request is
rejected with cannot_resume and the five diagnostic fields, leaving the state
unchanged. -/
theorem resume_decision_table (st : GatewayState) (fs : List String) (now : Nat)
    (hF : st.job.status = .failed) :
    (resumeCondMux st fs = true →
        (resumeRoute st fs now).1.job.status = .dubbed
      ∧ (resumeRoute st fs now).1.queues.mux.filter (fun e => e.jobId == st.job.id) =
          [{ jobId := st.job.id, data := muxDataOf st.job st.media,
             priority := st.job.priority }]
      ∧ (resumeRoute st fs now).1.queues.dub = st.queues.dub
      ∧ (resumeRoute st fs now).1.queues.download = st.queues.download
      ∧ resumedFromOf (resumeRoute st fs now).2 = some .muxing
      ∧ (resumeRoute st fs now).1.events =
          st.events ++ [{ event := .retry
                          previousStatus := some st.job.status
                          resumeFrom := some .muxing },
            { event := .state_change, fromSt := some st.job.status, toSt := some .dubbed }])
  ∧ (resumeCondMux st fs = false → resumeCondDub st fs = true →
        (resumeRoute st fs now).1.job.status = .downloaded
      ∧ (resumeRoute st fs now).1.queues.dub.filter (fun e => e.jobId == st.job.id) =
          [{ jobId := st.job.id, data := dubDataOf st.job st.media,
             priority := st.job.priority }]
      ∧ (resumeRoute st fs now).1.queues.mux = st.queues.mux
      ∧ (resumeRoute st fs now).1.queues.download = st.queues.download
      ∧ resumedFromOf (resumeRoute st fs now).2 = some .dubbing
      ∧ (resumeRoute st fs now).1.events =
          st.events ++ [{ event := .retry
                          previousStatus := some st.job.status
                          resumeFrom := some .dubbing },
            { event := .state_change
              fromSt := some st.job.status
              toSt := some .downloaded }])
  ∧ (resumeCondMux st fs = false → resumeCondDub st fs = false →
        (resumeRoute st fs now).1 = st
      ∧ (resumeRoute st fs now).2 = .cannotResume (resumeDiagOf st fs)) := by
  have hguard : (st.job.status == .failed) = true := by simp [hF]
  refine ⟨fun h1 => ?_, fun h1 h2 => ?_, fun h1 h2 => ?_⟩
  · have hroute : resumeRoute st fs now =
        ({ st with
            job := updateJobStatusRow st.job .dubbed none now
            events := logJobEventRow
              (logJobEventRow st.events
                { event := .retry
                  previousStatus := some st.job.status
                  resumeFrom := some .muxing })
              { event := .state_change, fromSt := some st.job.status, toSt := some .dubbed }
            queues := enqueueMux st.queues st.job.id (muxDataOf st.job st.media)
              st.job.priority },
          .resumed (updateJobStatusRow st.job .dubbed none now) .muxing) := by
      unfold resumeRoute
      rw [hguard, h1]
      simp
    rw [hroute]
    refine ⟨rfl, ?_, rfl, rfl, rfl, ?_⟩
    · simp only [enqueueMux]
      exact filter_bullAdd_self st.queues.mux st.job.id (muxDataOf st.job st.media)
        st.job.priority
    · simp [logJobEventRow]
  · have hroute : resumeRoute st fs now =
        ({ st with
            job := updateJobStatusRow st.job .downloaded none now
            events := logJobEventRow
              (logJobEventRow st.events
                { event := .retry
                  previousStatus := some st.job.status
                  resumeFrom := some .dubbing })
              { event := .state_change
                fromSt := some st.job.status
                toSt := some .downloaded }
            queues := enqueueDub st.queues st.job.id (dubDataOf st.job st.media)
              st.job.priority },
          .resumed (updateJobStatusRow st.job .downloaded none now) .dubbing) := by
      unfold resumeRoute
      rw [hguard, h1, h2]
      simp
    rw [hroute]
    refine ⟨rfl, ?_, rfl, rfl, rfl, ?_⟩
    · simp only [enqueueDub]
      exact filter_bullAdd_self st.queues.dub st.job.id (dubDataOf st.job st.media)
        st.job.priority
    · simp [logJobEventRow]
  · have hroute : resumeRoute st fs now = (st, .cannotResume (resumeDiagOf st fs)) := by
      unfold resumeRoute
      rw [hguard, h1, h2]
      simp
    rw [hroute]
    exact ⟨rfl, rfl⟩

/-- C1 (witness): a FAILED dubbing job whose history reached DUBBED and whose video
and dubbed audio are on disk resumes from muxing. -/
theorem resume_decision_table_witness :
    fixStResume.job.status = .failed
  ∧ resumeCondMux fixStResume ["/m/v.mp4", "/m/d.wav"] = true
  ∧ (resumeRoute fixStResume ["/m/v.mp4", "/m/d.wav"] 7).1.job.status = .dubbed
  ∧ resumedFromOf (resumeRoute fixStResume ["/m/v.mp4", "/m/d.wav"] 7).2 =
      some .muxing :=
  ⟨by decide, by decide,
    ((resume_decision_table fixStResume ["/m/v.mp4", "/m/d.wav"] 7 (by decide)).1
      (by decide)).1,
    ((resume_decision_table fixStResume ["/m/v.mp4", "/m/d.wav"] 7 (by decide)).1
      (by decide)).2.2.2.2.1⟩

/-- C1 (counterexample): job 01J reached DOWNLOADED, its video exists and dubbing was
requested, yet resume rejects with cannot_resume: the DOWNLOADED state_change is the
oldest of 201 events and falls outside the 200-most-recent window the route scans, so
the decision is not computed over the full event history. -/
theorem resume_truncated_history_cex :
    fixStTrunc.job.status = .failed
  ∧ fixStTrunc.job.requestedDubbing = true
  ∧ hasVideoOnDisk fixStTrunc.media ["/m/v.mp4"] = true
  ∧ ((fixStTrunc.events.filter (fun e => e.event == .state_change)).filterMap
      (fun e => e.toSt)).contains .downloaded = true
  ∧ (resumeRoute fixStTrunc ["/m/v.mp4"] 9).2 =
      .cannotResume ⟨false, false, true, false, true⟩
  ∧ (resumeRoute fixStTrunc ["/m/v.mp4"] 9).1 = fixStTrunc := by decide


/-! Helper lemmas for the completed_at invariant. -/

lemma updateJobStatusRow_status (j : Job) (s : JobStatus) (e : Option String) (n : Nat) :
    (updateJobStatusRow j s e n).status = s := rfl

lemma updateJobStatusRow_completedAt_terminal (j : Job) (s : JobStatus)
    (e : Option String) (n : Nat)
    (hj : terminalStatus j.status = true → j.completedAt.isSome = true)
    (hs : terminalStatus s = true) :
    (updateJobStatusRow j s e n).completedAt.isSome = true := by
  unfold updateJobStatusRow
  by_cases h : terminalStatus j.status = true
  · simp only [h, hs, Bool.not_true, Bool.and_false]
    exact hj h
  · have hb : terminalStatus j.status = false := by
      cases hx : terminalStatus j.status
      · rfl
      · exact absurd hx h
    simp [hs, hb]

lemma updateJobStatusRow_completedAt_mono (j : Job) (s : JobStatus) (e : Option String)
    (n : Nat) (hj : j.completedAt.isSome = true) :
    (updateJobStatusRow j s e n).completedAt.isSome = true := by
  unfold updateJobStatusRow
  cases hC : (terminalStatus s && !terminalStatus j.status)
  · simpa [hC] using hj
  · simp [hC]

lemma cancelRoute_job_cases (st : GatewayState) (fs : List String) (now : Nat) :
    (cancelRoute st fs now).st.job = st.job ∨
    (cancelRoute st fs now).st.job = updateJobStatusRow st.job .canceled none now := by
  unfold cancelRoute
  by_cases h : terminalStatus st.job.status = true
  · simp [h]
  · have hb : terminalStatus st.job.status = false := by
      cases hx : terminalStatus st.job.status
      · rfl
      · exact absurd hx h
    simp [hb]

lemma controlCancel_job_cases (st : GatewayState) (now : Nat) :
    (controlCancel st now).1.job = st.job ∨
    (controlCancel st now).1.job = updateJobStatusRow st.job .canceled none now := by
  unfold controlCancel
  by_cases h : terminalStatus st.job.status = true
  · simp [h]
  · have hb : terminalStatus st.job.status = false := by
      cases hx : terminalStatus st.job.status
      · rfl
      · exact absurd hx h
    simp [hb]

lemma retryRoute_job_cases (st : GatewayState) (now : Nat) :
    (retryRoute st now).1.job = st.job ∨
    (retryRoute st now).1.job = updateJobStatusRow st.job .queued none now := by
  unfold retryRoute
  by_cases h : (st.job.status == .failed || st.job.status == .canceled) = true
  · simp [h]
  · have hb : (st.job.status == .failed || st.job.status == .canceled) = false := by
      cases hx : (st.job.status == .failed || st.job.status == .canceled)
      · rfl
      · exact absurd hx h
    simp [hb]

lemma resumeRoute_job_cases (st : GatewayState) (fs : List String) (now : Nat) :
    (resumeRoute st fs now).1.job = st.job ∨
    (resumeRoute st fs now).1.job = updateJobStatusRow st.job .dubbed none now ∨
    (resumeRoute st fs now).1.job = updateJobStatusRow st.job .downloaded none now := by
  unfold resumeRoute
  by_cases h0 : (st.job.status == .failed) = true
  · simp only [h0, Bool.not_true, Bool.false_eq_true, if_false]
    by_cases h1 : resumeCondMux st fs = true
    · simp [h1]
    · have hb1 : resumeCondMux st fs = false := by
        cases hx : resumeCondMux st fs
        · rfl
        · exact absurd hx h1
      by_cases h2 : resumeCondDub st fs = true
      · simp [hb1, h2]
      · have hb2 : resumeCondDub st fs = false := by
          cases hx : resumeCondDub st fs
          · rfl
          · exact absurd hx h2
        simp [hb1, hb2]
  · have hb : (st.job.status == .failed) = false := by
      cases hx : (st.job.status == .failed)
      · rfl
      · exact absurd hx h0
    simp [hb]

lemma handleErrorEvent_job_cases (st : GatewayState) (r : Bool) (m : String) (now : Nat) :
    (handleErrorEvent st r m now).job = st.job ∨
    (handleErrorEvent st r m now).job = updateJobStatusRow st.job .failed (some m) now := by
  unfold handleErrorEvent
  cases r
  · simp
  · simp

lemma gstep_completedAt_terminal {st st' : GatewayState} (hs : GStep st st')
    (ih : terminalStatus st.job.status = true → st.job.completedAt.isSome = true) :
    terminalStatus st'.job.status = true → st'.job.completedAt.isSome = true := by
  cases hs with
  | stateChange f t n =>
    intro ht
    exact updateJobStatusRow_completedAt_terminal st.job t none n ih ht
  | errorEvent r m n =>
    intro ht
    rcases handleErrorEvent_job_cases st r m n with h | h
    · rw [h] at ht ⊢
      exact ih ht
    · rw [h] at ht ⊢
      exact updateJobStatusRow_completedAt_terminal st.job .failed (some m) n ih ht
  | logEvent m =>
    intro ht
    exact ih ht
  | metadataEvent p =>
    intro ht
    exact ih ht
  | cancel fs n =>
    intro ht
    rcases cancelRoute_job_cases st fs n with h | h
    · rw [h] at ht ⊢
      exact ih ht
    · rw [h] at ht ⊢
      exact updateJobStatusRow_completedAt_terminal st.job .canceled none n ih ht
  | ctrlCancel n =>
    intro ht
    rcases controlCancel_job_cases st n with h | h
    · rw [h] at ht ⊢
      exact ih ht
    · rw [h] at ht ⊢
      exact updateJobStatusRow_completedAt_terminal st.job .canceled none n ih ht
  | prioritize p n =>
    intro ht
    exact ih ht
  | retry n =>
    intro ht
    rcases retryRoute_job_cases st n with h | h
    · rw [h] at ht ⊢
      exact ih ht
    · rw [h, updateJobStatusRow_status] at ht
      exact absurd ht (by decide)
  | resume fs n =>
    intro ht
    rcases resumeRoute_job_cases st fs n with h | h | h
    · rw [h] at ht ⊢
      exact ih ht
    · rw [h, updateJobStatusRow_status] at ht
      exact absurd ht (by decide)
    · rw [h, updateJobStatusRow_status] at ht
      exact absurd ht (by decide)

lemma gstep_completedAt_mono {st st' : GatewayState} (hs : GStep st st')
    (h : st.job.completedAt.isSome = true) : st'.job.completedAt.isSome = true := by
  cases hs with
  | stateChange f t n =>
    exact updateJobStatusRow_completedAt_mono st.job t none n h
  | errorEvent r m n =>
    rcases handleErrorEvent_job_cases st r m n with he | he
    · rw [he]
      exact h
    · rw [he]
      exact updateJobStatusRow_completedAt_mono st.job .failed (some m) n h
  | logEvent m => exact h
  | metadataEvent p => exact h
  | cancel fs n =>
    rcases cancelRoute_job_cases st fs n with he | he
    · rw [he]
      exact h
    · rw [he]
      exact updateJobStatusRow_completedAt_mono st.job .canceled none n h
  | ctrlCancel n =>
    rcases controlCancel_job_cases st n with he | he
    · rw [he]
      exact h
    · rw [he]
      exact updateJobStatusRow_completedAt_mono st.job .canceled none n h
  | prioritize p n => exact h
  | retry n =>
    rcases retryRoute_job_cases st n with he | he
    · rw [he]
      exact h
    · rw [he]
      exact updateJobStatusRow_completedAt_mono st.job .queued none n h
  | resume fs n =>
    rcases resumeRoute_job_cases st fs n with he | he | he
    · rw [he]
      exact h
    · rw [he]
      exact updateJobStatusRow_completedAt_mono st.job .dubbed none n h
    · rw [he]
      exact updateJobStatusRow_completedAt_mono st.job .downloaded none n h

lemma greach_completedAt (st : GatewayState) (h : GReach st) :
    terminalStatus st.job.status = true → st.job.completedAt.isSome = true := by
  induction h with
  | init free req id now queues fs =>
    intro ht
    rw [show (jobsPostHandler free req id now queues fs).1.job.status = .queued from rfl]
      at ht
    exact absurd ht (by decide)
  | step hr hstep ih =>
    exact gstep_completedAt_terminal hstep ih

/-- C2 (amended): `completed_at` is set by the `set_jobs_completed_at` trigger on the
first transition into a terminal status and is never cleared afterwards: in every
reachable state, a terminal status implies `completed_at` is non-null, and every
operation preserves non-nullness. In particular, after retry resets a FAILED or
CANCELED job to QUEUED, `completed_at` stays non-null — the claimed biconditional
fails in its only-if direction (see counterexample). -/
theorem completedAt_invariant :
    (∀ st : GatewayState, GReach st → terminalStatus st.job.status = true →
        st.job.completedAt.isSome = true)
  ∧ (∀ st st' : GatewayState, GStep st st' → st.job.completedAt.isSome = true →
        st'.job.completedAt.isSome = true) :=
  ⟨fun st h => greach_completedAt st h, fun _ _ hs h => gstep_completedAt_mono hs h⟩

/-- C2 (witness): in the reachable state where job 01W just failed, completed_at is
set. -/
theorem completedAt_invariant_witness :
    terminalStatus fixStFailed.job.status = true
  ∧ fixStFailed.job.completedAt.isSome = true :=
  ⟨by decide, completedAt_invariant.1 fixStFailed
    (GReach.step (GReach.init 0 fixReq "01W" 1 {} [])
      (GStep.stateChange .queued .failed 2))
    (by decide)⟩

/-- C2 (counterexample): after create → worker state_change to FAILED → retry, job 01W
is QUEUED (non-terminal) yet its completed_at is still `some 2`: the reachable
sequence refutes the biconditional, and completed_at is not null again after
retry. -/
theorem completedAt_retry_cex :
    fixStRetried.job.status = .queued
  ∧ terminalStatus fixStRetried.job.status = false
  ∧ fixStRetried.job.completedAt = some 2
  ∧ GReach fixStRetried :=
  ⟨by decide, by decide, by decide,
    GReach.step (GReach.step (GReach.init 0 fixReq "01W" 1 {} [])
      (GStep.stateChange .queued .failed 2)) (GStep.retry 3)⟩


/-! Helper lemmas for the subscription-gateway invariant. -/

lemma alistFind_set_self (m : List (String × List String)) (k : String) (v : List String) :
    alistFind (alistSet m k v) k = some v := by
  induction m with
  | nil => simp [alistSet, alistFind]
  | cons kv rest ih =>
    by_cases h : kv.1 = k
    · simp [alistSet, alistFind, h]
    · simp [alistSet, alistFind, h, ih]

lemma alistFind_set_ne (m : List (String × List String)) (k : String) (v : List String)
    (k' : String) (h : k' ≠ k) : alistFind (alistSet m k v) k' = alistFind m k' := by
  induction m with
  | nil => simp [alistSet, alistFind, Ne.symm h]
  | cons kv rest ih =>
    by_cases h1 : kv.1 = k
    · have h2 : kv.1 ≠ k' := by rw [h1]; exact Ne.symm h
      simp [alistSet, alistFind, h1, h2, Ne.symm h]
    · simp [alistSet, alistFind, h1, ih]

lemma alistFind_remove_self (m : List (String × List String)) (k : String) :
    alistFind (alistRemove m k) k = none := by
  induction m with
  | nil => rfl
  | cons kv rest ih =>
    by_cases h : kv.1 = k
    · simp [alistRemove, h, ih]
    · simp [alistRemove, alistFind, h, ih]

lemma alistFind_remove_ne (m : List (String × List String)) (k k' : String) (h : k' ≠ k) :
    alistFind (alistRemove m k) k' = alistFind m k' := by
  induction m with
  | nil => rfl
  | cons kv rest ih =>
    by_cases h1 : kv.1 = k
    · have h2 : kv.1 ≠ k' := by rw [h1]; exact Ne.symm h
      simp [alistRemove, alistFind, h1, h2, Ne.symm h, ih]
    · simp [alistRemove, alistFind, h1, ih]

lemma alistFindD_setNE_self (m : List (String × List String)) (k : String)
    (v : List String) : (alistFind (alistSetNE m k v) k).getD [] = v := by
  cases v with
  | nil => simp [alistSetNE, alistFind_remove_self]
  | cons a t => simp [alistSetNE, alistFind_set_self]

lemma alistFind_setNE_ne (m : List (String × List String)) (k : String) (v : List String)
    (k' : String) (h : k' ≠ k) : alistFind (alistSetNE m k v) k' = alistFind m k' := by
  unfold alistSetNE
  by_cases hv : v.isEmpty
  · simp [hv, alistFind_remove_ne m k k' h]
  · simp [hv, alistFind_set_ne m k v k' h]

lemma alistFind_mapVals (f : List String → List String) (m : List (String × List String))
    (k : String) :
    alistFind (m.map (fun kv => (kv.1, f kv.2))) k = (alistFind m k).map f := by
  induction m with
  | nil => rfl
  | cons kv rest ih =>
    by_cases h : kv.1 = k
    · simp [alistFind, h]
    · simp [alistFind, h, ih]

lemma mem_listAdd (l : List String) (x y : String) : y ∈ listAdd l x ↔ y ∈ l ∨ y = x := by
  unfold listAdd
  by_cases h : l.contains x
  · have hx : x ∈ l := by simpa using h
    simp only [h, if_true]
    constructor
    · exact Or.inl
    · rintro (hy | rfl)
      · exact hy
      · exact hx
  · have hx : x ∉ l := by simpa using h
    simp [hx]

lemma mem_listRemove (l : List String) (x y : String) :
    y ∈ listRemove l x ↔ y ∈ l ∧ y ≠ x := by
  unfold listRemove
  simp [List.mem_filter]


lemma roomMembers_subscribeOne (st : SubState) (c i j : String) :
    roomMembers (subscribeOne st c i) j =
      if j = i then listAdd (roomMembers st i) c else roomMembers st j := by
  unfold subscribeOne roomMembers
  by_cases hj : j = i
  · subst hj
    simp [alistFind_set_self]
  · simp [hj, alistFind_set_ne st.rooms i (listAdd ((alistFind st.rooms i).getD []) c) j hj]

lemma subsOf_subscribeOne (st : SubState) (c i c' : String) :
    subsOf (subscribeOne st c i) c' =
      if c' = c then listAdd (subsOf st c) i else subsOf st c' := by
  unfold subscribeOne subsOf
  by_cases hc : c' = c
  · subst hc
    simp [alistFind_set_self]
  · simp [hc,
      alistFind_set_ne st.socketJobs c (listAdd ((alistFind st.socketJobs c).getD []) i) c' hc]

lemma subInv_subscribeOne (st : SubState) (c i : String) (h : SubInv st) :
    SubInv (subscribeOne st c i) := by
  intro c' j
  rw [roomMembers_subscribeOne, subsOf_subscribeOne]
  by_cases hj : j = i <;> by_cases hc : c' = c <;>
    simp [hj, hc, mem_listAdd, h c' i, h c j, h c' j]

lemma roomMembers_unsubscribeOne (st : SubState) (c i j : String) :
    roomMembers (unsubscribeOne st c i) j =
      if j = i then listRemove (roomMembers st i) c else roomMembers st j := by
  unfold unsubscribeOne roomMembers
  by_cases hj : j = i
  · rw [hj, if_pos rfl]
    exact alistFindD_setNE_self st.rooms i (listRemove ((alistFind st.rooms i).getD []) c)
  · simp [hj,
      alistFind_setNE_ne st.rooms i (listRemove ((alistFind st.rooms i).getD []) c) j hj]

lemma subsOf_unsubscribeOne (st : SubState) (c i c' : String) :
    subsOf (unsubscribeOne st c i) c' =
      if c' = c then listRemove (subsOf st c) i else subsOf st c' := by
  unfold unsubscribeOne subsOf
  by_cases hc : c' = c
  · subst hc
    simp [alistFind_set_self]
  · simp [hc,
      alistFind_set_ne st.socketJobs c (listRemove ((alistFind st.socketJobs c).getD []) i) c' hc]

lemma subInv_unsubscribeOne (st : SubState) (c i : String) (h : SubInv st) :
    SubInv (unsubscribeOne st c i) := by
  intro c' j
  rw [roomMembers_unsubscribeOne, subsOf_unsubscribeOne]
  by_cases hj : j = i <;> by_cases hc : c' = c <;>
    simp [hj, hc, mem_listRemove, h c' i, h c j, h c' j]

lemma subInv_connect (st : SubState) (c : String) (h : SubInv st)
    (hc : alistFind st.socketJobs c = none) : SubInv (connectOp st c) := by
  intro c' j
  have hroom : roomMembers (connectOp st c) j = roomMembers st j := rfl
  rw [hroom]
  by_cases hcc : c' = c
  · subst hcc
    have hsub : subsOf (connectOp st c') c' = [] := by
      unfold connectOp subsOf
      simp [alistFind_set_self]
    rw [hsub]
    have hold : subsOf st c' = [] := by
      unfold subsOf
      rw [hc]
      rfl
    have := h c' j
    rw [hold] at this
    simpa using this
  · have hsub : subsOf (connectOp st c) c' = subsOf st c' := by
      unfold connectOp subsOf
      simp [alistFind_set_ne st.socketJobs c [] c' hcc]
    rw [hsub]
    exact h c' j

lemma discFold_socketJobs (jobs : List String) (c : String) :
    ∀ st : SubState, (jobs.foldl (discJobSockets c) st).socketJobs = st.socketJobs := by
  induction jobs with
  | nil => intro st; rfl
  | cons j rest ih =>
    intro st
    exact ih (discJobSockets c st j)

lemma discFold_rooms (jobs : List String) (c : String) :
    ∀ st : SubState, (jobs.foldl (discJobSockets c) st).rooms = st.rooms := by
  induction jobs with
  | nil => intro st; rfl
  | cons j rest ih =>
    intro st
    exact ih (discJobSockets c st j)

lemma roomMembers_disconnectOp (st : SubState) (c j : String) :
    roomMembers (disconnectOp st c) j = listRemove (roomMembers st j) c := by
  unfold disconnectOp roomMembers
  simp only [discFold_rooms]
  rw [alistFind_mapVals (fun v => listRemove v c) st.rooms j]
  cases alistFind st.rooms j
  · rfl
  · rfl

lemma subsOf_disconnectOp (st : SubState) (c c' : String) :
    subsOf (disconnectOp st c) c' = if c' = c then [] else subsOf st c' := by
  unfold disconnectOp subsOf
  simp only [discFold_socketJobs]
  by_cases hc : c' = c
  · subst hc
    simp [alistFind_remove_self]
  · simp [hc, alistFind_remove_ne st.socketJobs c c' hc]

lemma subInv_disconnect (st : SubState) (c : String) (h : SubInv st) :
    SubInv (disconnectOp st c) := by
  intro c' j
  rw [roomMembers_disconnectOp, subsOf_disconnectOp]
  by_cases hc : c' = c
  · subst hc
    simp [mem_listRemove]
  · simp only [if_neg hc, mem_listRemove]
    constructor
    · rintro ⟨hr, _⟩
      exact (h c' j).mp hr
    · intro hsub
      exact ⟨(h c' j).mpr hsub, hc⟩

lemma subInv_subscribeFold (c : String) (ids : List String) :
    ∀ st : SubState, SubInv st →
      SubInv (ids.foldl (fun acc jobId => subscribeOne acc c jobId) st) := by
  induction ids with
  | nil => intro st h; exact h
  | cons i rest ih =>
    intro st h
    exact ih (subscribeOne st c i) (subInv_subscribeOne st c i h)

lemma subInv_unsubscribeFold (c : String) (ids : List String) :
    ∀ st : SubState, SubInv st →
      SubInv (ids.foldl (fun acc jobId => unsubscribeOne acc c jobId) st) := by
  induction ids with
  | nil => intro st h; exact h
  | cons i rest ih =>
    intro st h
    exact ih (unsubscribeOne st c i) (subInv_unsubscribeOne st c i h)

lemma subInv_subscribeOp (st : SubState) (c : String) (ids : List String) (h : SubInv st) :
    SubInv (subscribeOp st c ids) := by
  unfold subscribeOp
  cases alistFind st.socketJobs c
  · exact h
  · exact subInv_subscribeFold c ids st h

lemma subInv_unsubscribeOp (st : SubState) (c : String) (ids : List String)
    (h : SubInv st) : SubInv (unsubscribeOp st c ids) := by
  unfold unsubscribeOp
  cases alistFind st.socketJobs c
  · exact h
  · exact subInv_unsubscribeFold c ids st h

lemma subReach_inv (st : SubState) (h : SubReach st) : SubInv st := by
  induction h with
  | init =>
    intro c j
    simp [roomMembers, subsOf, alistFind]
  | step hr hstep ih =>
    cases hstep with
    | connect c hc => exact subInv_connect _ c ih hc
    | subscribe c ids => exact subInv_subscribeOp _ c ids ih
    | unsubscribe c ids => exact subInv_unsubscribeOp _ c ids ih
    | disconnect c => exact subInv_disconnect _ c ih


/-- C9 (amended): in every reachable subscription state, a connected client receives
exactly one copy of a forwarded progress, log or error message for job X when X is in
its subscription set and none otherwise; a state_change message is additionally
broadcast to every connected client (one extra copy on top of the room copy); a
metadata message is not forwarded; a disconnected client receives nothing.
Subscriptions are kept as sets, not reference counts: after a subscribe the job is in
the client's set (duplicates collapse), and a single unsubscribe removes it no matter
how many subscribes preceded it. -/
theorem fanout_delivery (st : SubState) (hreach : SubReach st) (c X : String) :
    (connectedSock st c = true →
        deliveredCopies st .progress X c = (if X ∈ subsOf st c then 1 else 0)
      ∧ deliveredCopies st .log X c = (if X ∈ subsOf st c then 1 else 0)
      ∧ deliveredCopies st .error X c = (if X ∈ subsOf st c then 1 else 0)
      ∧ deliveredCopies st .state_change X c = (if X ∈ subsOf st c then 1 else 0) + 1
      ∧ deliveredCopies st .metadata X c = 0
      ∧ X ∈ subsOf (subscribeOp st c [X]) c
      ∧ X ∉ subsOf (unsubscribeOp st c [X]) c)
  ∧ (connectedSock st c = false →
        deliveredCopies st .progress X c = 0
      ∧ deliveredCopies st .log X c = 0
      ∧ deliveredCopies st .error X c = 0
      ∧ deliveredCopies st .state_change X c = 0
      ∧ deliveredCopies st .metadata X c = 0) := by
  have hinv := subReach_inv st hreach
  have hroom : (c ∈ roomMembers st X) ↔ (X ∈ subsOf st c) := hinv c X
  constructor
  · intro hc
    obtain ⟨sj, hsj⟩ : ∃ sj, alistFind st.socketJobs c = some sj :=
      Option.isSome_iff_exists.mp hc
    have hsubcopy :
        (if c ∈ roomMembers st X then (1 : Nat) else 0) =
          (if X ∈ subsOf st c then 1 else 0) := by
      by_cases hx : X ∈ subsOf st c
      · rw [if_pos (hroom.mpr hx), if_pos hx]
      · rw [if_neg (fun hr => hx (hroom.mp hr)), if_neg hx]
    refine ⟨?_, ?_, ?_, ?_, ?_, ?_, ?_⟩
    · simpa [deliveredCopies] using hsubcopy
    · simpa [deliveredCopies] using hsubcopy
    · simpa [deliveredCopies] using hsubcopy
    · simp only [deliveredCopies, connectedSock, hsj]
      rw [hsubcopy]
      rfl
    · simp [deliveredCopies]
    · unfold subscribeOp
      rw [hsj]
      have : List.foldl (fun acc jobId => subscribeOne acc c jobId) st [X] =
          subscribeOne st c X := rfl
      rw [this, subsOf_subscribeOne, if_pos rfl, mem_listAdd]
      exact Or.inr rfl
    · unfold unsubscribeOp
      rw [hsj]
      have : List.foldl (fun acc jobId => unsubscribeOne acc c jobId) st [X] =
          unsubscribeOne st c X := rfl
      rw [this, subsOf_unsubscribeOne, if_pos rfl, mem_listRemove]
      rintro ⟨_, hne⟩
      exact hne rfl
  · intro hc
    have hnone : alistFind st.socketJobs c = none := by
      cases hf : alistFind st.socketJobs c
      · rfl
      · rw [connectedSock, hf] at hc
        exact absurd hc (by simp)
    have hsubs : subsOf st c = [] := by
      rw [subsOf, hnone]
      rfl
    have hcr : c ∉ roomMembers st X := by
      intro hr
      have := hroom.mp hr
      rw [hsubs] at this
      simp at this
    simp [deliveredCopies, hcr, connectedSock, hnone]

/-- C9 (witness): socket `a` subscribed to job `j1` receives exactly one copy of a
progress message for `j1` and two copies of a state_change message. -/
theorem fanout_delivery_witness :
    connectedSock fixSubA1 "a" = true
  ∧ deliveredCopies fixSubA1 .progress "j1" "a" = 1
  ∧ deliveredCopies fixSubA1 .state_change "j1" "a" = 2 := by
  have hreach : SubReach fixSubA1 :=
    SubReach.step (SubReach.step SubReach.init (SubStep.connect "a" rfl))
      (SubStep.subscribe "a" ["j1"])
  have hmain := (fanout_delivery fixSubA1 hreach "a" "j1").1 (by decide)
  refine ⟨by decide, ?_, ?_⟩
  · rw [hmain.1]
    decide
  · rw [hmain.2.2.2.1]
    decide

/-- C9 (counterexample): a connected socket with an empty subscription set (reference
count 0 for every job) still receives one copy of a forwarded state_change message for
job `j1` (the handler broadcasts state_change to all clients), a subscribed socket
receives two copies, and subscriptions are not reference-counted: after subscribing to
`j1` twice, a single unsubscribe already removes it. -/
theorem fanout_broadcast_cex :
    connectedSock fixSubA "a" = true
  ∧ subsOf fixSubA "a" = []
  ∧ deliveredCopies fixSubA .state_change "j1" "a" = 1
  ∧ deliveredCopies fixSubA1 .state_change "j1" "a" = 2
  ∧ subsOf (subscribeOp fixSubA1 "a" ["j1"]) "a" = ["j1"]
  ∧ "j1" ∉ subsOf (unsubscribeOp (subscribeOp fixSubA1 "a" ["j1"]) "a" ["j1"]) "a" := by
  decide

end VDM
